import Mathlib

/-!
Shallow embedding of `beds24_auth_manager.py` (class `Beds24AuthManager`).

Modelling conventions:
* Timestamps: an ISO-8601 string stored in a record is represented by the
  outcome of `datetime.fromisoformat` on it — `TimeVal.aware t` (parses,
  timezone-qualified, denoting the UTC instant `t` in seconds),
  `TimeVal.naive t` (parses but timezone-less; the code attaches UTC, so it
  also denotes instant `t`), or `TimeVal.malformed` (parse raises).
* A JSON record (the content of one of the three token files) is a `Rec`
  with one optional field per key the code reads; a field that is `none`
  models a key absent from the dictionary.  The Python truthiness test
  `not data` (empty dict) corresponds to every modelled field being `none`.
* The remote server and the clock are an oracle `Env`: for each endpoint a
  function from the header-carried credential to a `NetOutcome` (network
  exception, or a status code together with a body that is `none` when
  `response.json()` raises).
* The three files are an `FS`; `none` models an absent file.
* Every operation returns its Python return value together with the
  resulting in-memory manager state, the resulting file system, and the
  list of network requests issued, in order.
* `timedelta(days := d)` equals `d * 86400` seconds.
-/

/-- Parse outcome of an ISO-8601 datetime string (`datetime.fromisoformat`). -/
inductive TimeVal where
  | aware (t : Int)
  | naive (t : Int)
  | malformed
  deriving DecidableEq, Repr

/-- The UTC instant a stored timestamp denotes after the code's
normalisation: a naive value gets `tzinfo=timezone.utc` attached, a parse
failure yields nothing. -/
def TimeVal.utcInstant : TimeVal → Option Int
  | .aware t => some t
  | .naive t => some t
  | .malformed => none

/-- One persisted JSON record.  `token` models the credential key the code
reads from it (`access_token`, `refresh_token` or `invite_code`). -/
structure Rec where
  token : Option String
  created : Option TimeVal
  expiration : Option TimeVal
  deriving DecidableEq, Repr

/-- Python truthiness of the dictionary: `not data` holds iff no modelled
key is present. -/
def Rec.isTruthy (r : Rec) : Bool :=
  r.token.isSome || r.created.isSome || r.expiration.isSome

/-- The empty dictionary (what `_load_file` returns for a missing, empty or
corrupt file). -/
def Rec.emptyRec : Rec := ⟨none, none, none⟩

/-- `_has_not_expired(self, data)`: false on an empty dict or a missing
`expiration` key; otherwise parse, attach UTC when naive, and compare with
`datetime.now(timezone.utc)`; a `ValueError`/`TypeError` is caught and
yields false. -/
def has_not_expired (now : Int) (data : Rec) : Bool :=
  if !data.isTruthy then false
  else
    match data.expiration with
    | none => false
    | some e =>
      match e.utcInstant with
      | none => false
      | some t => decide (now < t)

/-- Body of a 2xx response of the setup endpoint, one optional field per key
the code reads. -/
structure SetupBody where
  token : Option String
  refreshToken : Option String
  expiresIn : Option Int
  deriving DecidableEq, Repr

/-- Body of a 2xx response of the token (refresh) endpoint. -/
structure RefreshBody where
  token : Option String
  expiresIn : Option Int
  deriving DecidableEq, Repr

/-- Body of a response of the details endpoint. -/
structure DetailsBody where
  validToken : Option Bool
  deriving DecidableEq, Repr

/-- Outcome of one `requests.get`: the request itself raises, or a response
arrives with a status code and a body (`none` when `response.json()`
raises). -/
inductive NetOutcome (α : Type) where
  | exn
  | resp (status : Nat) (body : Option α)
  deriving DecidableEq, Repr

/-- `response.raise_for_status()` raises exactly on 4xx/5xx. -/
def raisesForStatus (status : Nat) : Bool :=
  400 ≤ status && status < 600

/-- One network request, identified by endpoint and header credential. -/
inductive NetCall where
  | setupCall (code : String)
  | refreshCall (tok : String)
  | detailsCall (tok : String)
  deriving DecidableEq, Repr

/-- Is this request a hit on the token (refresh) endpoint? -/
def NetCall.isRefresh : NetCall → Bool
  | .refreshCall _ => true
  | _ => false

/-- The oracle: current UTC clock, and the remote server's behaviour at each
endpoint as a function of the credential sent. -/
structure Env where
  now : Int
  setupResp : String → NetOutcome SetupBody
  refreshResp : String → NetOutcome RefreshBody
  detailsResp : String → NetOutcome DetailsBody

/-- The three token files (`none` = file absent). -/
structure FS where
  inviteFile : Option Rec
  refreshFile : Option Rec
  authFile : Option Rec
  deriving DecidableEq, Repr

/-- The manager's in-memory state: the three records loaded at construction
(`__init__`) and mutated only by `refresh_auth_token`. -/
structure Manager where
  invite_code_data : Rec
  refresh_token_data : Rec
  auth_token_data : Rec
  deriving DecidableEq, Repr

/-- Result of a stateful operation: Python return value, resulting
in-memory state, resulting files, network requests issued in order. -/
structure OpResult (α : Type) where
  ret : α
  mgr : Manager
  fs : FS
  calls : List NetCall
  deriving Repr

/-- `_get_token_details(self, token)`: GET the details endpoint; return the
parsed body only on status exactly 200; any exception (network or JSON) is
caught and yields `None`. -/
def get_token_details (env : Env) (token : String) :
    Option DetailsBody × List NetCall :=
  match env.detailsResp token with
  | .exn => (none, [.detailsCall token])
  | .resp status body =>
    if status = 200 then
      match body with
      | none => (none, [.detailsCall token])
      | some b => (some b, [.detailsCall token])
    else (none, [.detailsCall token])

/-- `validate_token(self, token)`: true iff `_get_token_details` returned a
truthy dict whose `validToken` key (default `False`) is true. -/
def validate_token (env : Env) (token : String) : Bool × List NetCall :=
  match get_token_details env token with
  | (none, calls) => (false, calls)
  | (some d, calls) => (d.validToken.getD false, calls)

/-- `setup_with_invite_code(self, invite_code, expiration_days=30)`:
exchange the invite code for an initial token pair.  The auth-token file is
saved before `token_data["refreshToken"]` is read, so a success response
that carries `token` but lacks `refreshToken` raises `KeyError` only after
that first save.  `os.remove(INVITE_CODE_FILE)` runs after both saves.  The
in-memory records are never assigned. -/
def setup_with_invite_code (env : Env) (m : Manager) (fs : FS)
    (invite_code : String) (expiration_days : Int) : OpResult Bool :=
  if invite_code = "" then ⟨false, m, fs, []⟩
  else
    match env.setupResp invite_code with
    | .exn => ⟨false, m, fs, [.setupCall invite_code]⟩
    | .resp status body =>
      if raisesForStatus status then ⟨false, m, fs, [.setupCall invite_code]⟩
      else
        match body with
        | none => ⟨false, m, fs, [.setupCall invite_code]⟩
        | some token_data =>
          let expires_in := token_data.expiresIn.getD 86400
          let current_utc := env.now
          let auth_expiration := current_utc + expires_in
          let refresh_expiration := current_utc + expiration_days * 86400
          match token_data.token with
          | none => ⟨false, m, fs, [.setupCall invite_code]⟩
          | some tok =>
            let auth_data : Rec :=
              ⟨some tok, some (.aware current_utc), some (.aware auth_expiration)⟩
            let fs1 : FS := ⟨fs.inviteFile, fs.refreshFile, some auth_data⟩
            match token_data.refreshToken with
            | none => ⟨false, m, fs1, [.setupCall invite_code]⟩
            | some rtok =>
              let refresh_data : Rec :=
                ⟨some rtok, some (.aware current_utc), some (.aware refresh_expiration)⟩
              let fs2 : FS := ⟨none, some refresh_data, some auth_data⟩
              ⟨true, m, fs2, [.setupCall invite_code]⟩

/-- `refresh_auth_token(self)`: requires a present, unexpired refresh record
with a truthy `refresh_token` value before any network traffic; on a
success response carrying `token`, saves and adopts the new auth record,
then self-validates it via `validate_token`, whose verdict is the return
value. -/
def refresh_auth_token (env : Env) (m : Manager) (fs : FS) : OpResult Bool :=
  if !m.refresh_token_data.isTruthy || !has_not_expired env.now m.refresh_token_data then
    ⟨false, m, fs, []⟩
  else
    match m.refresh_token_data.token with
    | none => ⟨false, m, fs, []⟩
    | some refresh_token =>
      if refresh_token = "" then ⟨false, m, fs, []⟩
      else
        match env.refreshResp refresh_token with
        | .exn => ⟨false, m, fs, [.refreshCall refresh_token]⟩
        | .resp status body =>
          if raisesForStatus status then ⟨false, m, fs, [.refreshCall refresh_token]⟩
          else
            match body with
            | none => ⟨false, m, fs, [.refreshCall refresh_token]⟩
            | some token_data =>
              match token_data.token with
              | none => ⟨false, m, fs, [.refreshCall refresh_token]⟩
              | some tok =>
                let expires_in := token_data.expiresIn.getD 86400
                let current_utc := env.now
                let auth_data : Rec :=
                  ⟨some tok, some (.aware current_utc),
                    some (.aware (current_utc + expires_in))⟩
                let fs1 : FS := ⟨fs.inviteFile, fs.refreshFile, some auth_data⟩
                let m1 : Manager :=
                  ⟨m.invite_code_data, m.refresh_token_data, auth_data⟩
                match validate_token env tok with
                | (ok, vcalls) =>
                  ⟨ok, m1, fs1, .refreshCall refresh_token :: vcalls⟩

/-- `get_valid_token(self)`: use the cached auth token when truthy and
unexpired; else, when the refresh record is truthy and unexpired, attempt
`refresh_auth_token` and on success return the adopted record's
`access_token`; else `None`. -/
def get_valid_token (env : Env) (m : Manager) (fs : FS) :
    OpResult (Option String) :=
  if m.auth_token_data.isTruthy && has_not_expired env.now m.auth_token_data then
    ⟨m.auth_token_data.token, m, fs, []⟩
  else if m.refresh_token_data.isTruthy && has_not_expired env.now m.refresh_token_data then
    match refresh_auth_token env m fs with
    | ⟨true, m1, fs1, calls⟩ => ⟨m1.auth_token_data.token, m1, fs1, calls⟩
    | ⟨false, m1, fs1, calls⟩ => ⟨none, m1, fs1, calls⟩
  else ⟨none, m, fs, []⟩

/-- The `{exists, valid, expired}` triple `check_token_status` computes per
record kind; Python's `data and expr` is truthy iff the dict is non-empty
and `expr` holds. -/
structure KindStatus where
  exists_ : Bool
  valid : Bool
  expired : Bool
  deriving DecidableEq, Repr

/-- One entry of the status dictionary, from the record it projects. -/
def recStatus (now : Int) (r : Rec) : KindStatus :=
  ⟨r.isTruthy, r.isTruthy && has_not_expired now r,
    r.isTruthy && !has_not_expired now r⟩

/-- The full status dictionary returned by `check_token_status`. -/
structure TokenStatus where
  auth_token : KindStatus
  refresh_token : KindStatus
  invite_code : KindStatus
  deriving DecidableEq, Repr

/-- `check_token_status(self)`: reads the three in-memory records and builds
the status dictionary; no assignment, no file access, no network. -/
def check_token_status (env : Env) (m : Manager) (fs : FS) :
    OpResult TokenStatus :=
  ⟨⟨recStatus env.now m.auth_token_data,
    recStatus env.now m.refresh_token_data,
    recStatus env.now m.invite_code_data⟩, m, fs, []⟩

/-! Concrete states and remote behaviours used to instantiate the theorems. -/

/-- No files on disk. -/
def fs0 : FS := ⟨none, none, none⟩

/-- A manager constructed with all three files absent. -/
def mEmpty : Manager := ⟨Rec.emptyRec, Rec.emptyRec, Rec.emptyRec⟩

/-- A refresh record that is still valid at instant 100. -/
def refreshRecValid : Rec := ⟨some "R", none, some (.aware 200)⟩

/-- A refresh record already expired at instant 100. -/
def refreshRecExpired : Rec := ⟨some "R", none, some (.aware 50)⟩

/-- An auth record that is still valid at instant 100. -/
def authRecValid : Rec := ⟨some "A", none, some (.aware 200)⟩

/-- A remote that is unreachable on every endpoint. -/
def envExn : Env := ⟨100, fun _ => .exn, fun _ => .exn, fun _ => .exn⟩

/-- A remote where refresh succeeds with token `"T"` and the details
endpoint then confirms it. -/
def envRefreshOk : Env :=
  ⟨100, fun _ => .exn, fun _ => .resp 200 (some ⟨some "T", some 3600⟩),
    fun _ => .resp 200 (some ⟨some true⟩)⟩

/-- A remote where refresh succeeds with token `"T"` but the details
endpoint reports `validToken: false`. -/
def envRefreshOkValidateFail : Env :=
  ⟨100, fun _ => .exn, fun _ => .resp 200 (some ⟨some "T", some 3600⟩),
    fun _ => .resp 200 (some ⟨some false⟩)⟩

/-- A remote whose setup endpoint answers 200 with a `token` but no
`refreshToken`. -/
def envSetupMissingRefresh : Env :=
  ⟨100, fun _ => .resp 200 (some ⟨some "T", none, none⟩),
    fun _ => .exn, fun _ => .exn⟩

/-- A remote whose setup endpoint answers 200 with a complete body. -/
def envSetupOk : Env :=
  ⟨100, fun _ => .resp 200 (some ⟨some "AT", some "RT", some 3600⟩),
    fun _ => .exn, fun _ => .exn⟩

/-- A remote whose details endpoint answers 201 (a 2xx status that is not
200) with `validToken: true`. -/
def envDetails201 : Env :=
  ⟨100, fun _ => .exn, fun _ => .exn, fun _ => .resp 201 (some ⟨some true⟩)⟩

/-- A remote whose details endpoint answers 200 with `validToken: true`. -/
def envDetails200True : Env :=
  ⟨100, fun _ => .exn, fun _ => .exn, fun _ => .resp 200 (some ⟨some true⟩)⟩

/-- Manager with only a valid refresh record in memory. -/
def mRefreshValid : Manager := ⟨Rec.emptyRec, refreshRecValid, Rec.emptyRec⟩

/-- Manager with only an expired refresh record in memory. -/
def mRefreshExpired : Manager := ⟨Rec.emptyRec, refreshRecExpired, Rec.emptyRec⟩

/-- Manager with only a valid auth record in memory. -/
def mAuthValid : Manager := ⟨Rec.emptyRec, Rec.emptyRec, authRecValid⟩

/-- The per-kind contract of the status projection: `expired` equals
`exists AND NOT valid`, and an absent record is neither valid nor
expired. -/
def statusOk (ks : KindStatus) : Prop :=
  ks.expired = (ks.exists_ && !ks.valid) ∧
  (ks.exists_ = false → ks.valid = false ∧ ks.expired = false)

/-- The one response shape under which a failing setup still writes the
auth-token file: the request succeeds (no exception, no 4xx/5xx, body
parses), the body has a `token` key, but no `refreshToken` key — the
`KeyError` then fires after the first save. -/
def missingRefreshTokenSuccess (env : Env) (code : String) : Bool :=
  match env.setupResp code with
  | .resp st (some tb) =>
    !raisesForStatus st && tb.token.isSome && tb.refreshToken.isNone
  | _ => false

/-! Helper lemmas. -/

/-- A record the expiry check accepts is in particular a truthy dict. -/
theorem truthy_of_has_not_expired {now : Int} {r : Rec}
    (h : has_not_expired now r = true) : r.isTruthy = true := by
  cases ht : r.isTruthy with
  | false => simp [has_not_expired, ht] at h
  | true => rfl

/-- `validate_token` issues exactly one request, to the details endpoint. -/
theorem validate_token_calls (env : Env) (tok : String) :
    (validate_token env tok).2 = [NetCall.detailsCall tok] := by
  unfold validate_token get_token_details
  cases env.detailsResp tok with
  | exn => rfl
  | resp st body =>
    by_cases hst : st = 200
    · cases body <;> simp [hst]
    · simp [hst]

/-- Each entry of the status dictionary satisfies the per-kind contract. -/
theorem recStatus_ok (now : Int) (r : Rec) : statusOk (recStatus now r) := by
  constructor
  · show (r.isTruthy && !has_not_expired now r) =
      (r.isTruthy && !(r.isTruthy && has_not_expired now r))
    cases r.isTruthy <;> cases has_not_expired now r <;> rfl
  · intro h
    have h' : r.isTruthy = false := h
    constructor
    · show (r.isTruthy && has_not_expired now r) = false
      simp [h']
    · show (r.isTruthy && !has_not_expired now r) = false
      simp [h']

/-! Claim theorems. -/

/-- Claim C4: `_has_not_expired` returns false when the record is absent
(empty dict), lacks an `expiration` key, or its value fails to parse; when
the value parses to the UTC instant `t` (a naive value being read as UTC,
which the last conjunct states) the result is true iff `now < t`; the
function is total, so a parse failure is never propagated as an error. -/
theorem has_not_expired_spec (now : Int) (r : Rec) :
    (r.isTruthy = false → has_not_expired now r = false) ∧
    (r.expiration = none → has_not_expired now r = false) ∧
    (∀ e, r.expiration = some e → e.utcInstant = none →
      has_not_expired now r = false) ∧
    (∀ e t, r.expiration = some e → e.utcInstant = some t →
      (has_not_expired now r = true ↔ now < t)) ∧
    (∀ t, TimeVal.utcInstant (TimeVal.naive t) =
      TimeVal.utcInstant (TimeVal.aware t)) := by
  refine ⟨fun h => ?_, fun h => ?_, fun e he hu => ?_, fun e t he hu => ?_,
    fun t => rfl⟩
  · simp [has_not_expired, h]
  · cases ht : r.isTruthy <;> simp [has_not_expired, ht, h]
  · cases ht : r.isTruthy <;> simp [has_not_expired, ht, he, hu]
  · have ht : r.isTruthy = true := by simp [Rec.isTruthy, he]
    simp [has_not_expired, ht, he, hu]

/-- Instance of C4: a naive expiration at instant 5 is read as UTC and is
still valid at instant 3. -/
theorem has_not_expired_spec_witness :
    has_not_expired 3 ⟨none, none, some (TimeVal.naive 5)⟩ = true :=
  ((has_not_expired_spec 3 ⟨none, none, some (TimeVal.naive 5)⟩).2.2.2.1
    (TimeVal.naive 5) 5 rfl rfl).mpr (by decide)

/-- Claim C5: `check_token_status` leaves the manager, the files and the
network untouched, and each of the three entries it returns satisfies
`expired = exists AND NOT valid`, an absent record being neither valid nor
expired. -/
theorem check_token_status_spec (env : Env) (m : Manager) (fs : FS) :
    (check_token_status env m fs).mgr = m ∧
    (check_token_status env m fs).fs = fs ∧
    (check_token_status env m fs).calls = [] ∧
    statusOk (check_token_status env m fs).ret.auth_token ∧
    statusOk (check_token_status env m fs).ret.refresh_token ∧
    statusOk (check_token_status env m fs).ret.invite_code :=
  ⟨rfl, rfl, rfl, recStatus_ok _ _, recStatus_ok _ _, recStatus_ok _ _⟩

/-- Instance of C5: with every file absent the auth-token entry reports not
valid (and the state is returned unchanged). -/
theorem check_token_status_spec_witness :
    (check_token_status envExn mEmpty fs0).ret.auth_token.valid = false ∧
    (check_token_status envExn mEmpty fs0).mgr = mEmpty :=
  ⟨((check_token_status_spec envExn mEmpty fs0).2.2.2.1.2 rfl).1,
    (check_token_status_spec envExn mEmpty fs0).1⟩

/-- Claim C6: with an absent or expired refresh record,
`refresh_auth_token` returns false at once with no network request and no
state change, and if the auth record is also not valid, `get_valid_token`
returns `None` with no network request. -/
theorem refresh_requires_valid_refresh_record (env : Env) (m : Manager)
    (fs : FS)
    (h : has_not_expired env.now m.refresh_token_data = false) :
    refresh_auth_token env m fs = ⟨false, m, fs, []⟩ ∧
    (has_not_expired env.now m.auth_token_data = false →
      get_valid_token env m fs = ⟨none, m, fs, []⟩) := by
  have h1 : refresh_auth_token env m fs = ⟨false, m, fs, []⟩ := by
    unfold refresh_auth_token
    simp [h]
  refine ⟨h1, fun h2 => ?_⟩
  unfold get_valid_token
  simp [h, h2]

/-- Instance of C6: expired refresh record, empty auth record, remote
unreachable — but no request is even attempted. -/
theorem refresh_requires_valid_refresh_record_witness :
    refresh_auth_token envExn mRefreshExpired fs0 =
      ⟨false, mRefreshExpired, fs0, []⟩ ∧
    get_valid_token envExn mRefreshExpired fs0 =
      ⟨none, mRefreshExpired, fs0, []⟩ :=
  ⟨(refresh_requires_valid_refresh_record envExn mRefreshExpired fs0
      (by decide)).1,
    (refresh_requires_valid_refresh_record envExn mRefreshExpired fs0
      (by decide)).2 (by decide)⟩

/-- Claim C10: `setup_with_invite_code` never assigns the in-memory
records, on success or failure; later reads on the same instance still see
the records loaded at construction. -/
theorem setup_preserves_memory (env : Env) (m : Manager) (fs : FS)
    (code : String) (days : Int) :
    (setup_with_invite_code env m fs code days).mgr = m := by
  unfold setup_with_invite_code
  repeat' split
  all_goals rfl

/-- Claim C1: `get_valid_token` first returns the cached token when the auth
record passes the expiry check, touching nothing; otherwise, when the
refresh record passes, it runs `refresh_auth_token` and returns the adopted
record's token exactly when that attempt succeeded; otherwise it returns
`None` with no network traffic and no state change. -/
theorem get_valid_token_decision_order (env : Env) (m : Manager) (fs : FS) :
    (has_not_expired env.now m.auth_token_data = true →
      get_valid_token env m fs = ⟨m.auth_token_data.token, m, fs, []⟩) ∧
    (has_not_expired env.now m.auth_token_data = false →
      has_not_expired env.now m.refresh_token_data = true →
      (((refresh_auth_token env m fs).ret = true →
        get_valid_token env m fs =
          ⟨(refresh_auth_token env m fs).mgr.auth_token_data.token,
            (refresh_auth_token env m fs).mgr,
            (refresh_auth_token env m fs).fs,
            (refresh_auth_token env m fs).calls⟩) ∧
        ((refresh_auth_token env m fs).ret = false →
        get_valid_token env m fs =
          ⟨none, (refresh_auth_token env m fs).mgr,
            (refresh_auth_token env m fs).fs,
            (refresh_auth_token env m fs).calls⟩))) ∧
    (has_not_expired env.now m.auth_token_data = false →
      has_not_expired env.now m.refresh_token_data = false →
      get_valid_token env m fs = ⟨none, m, fs, []⟩) := by
  refine ⟨fun h1 => ?_, fun h1 h2 => ?_, fun h1 h2 => ?_⟩
  · have ht := truthy_of_has_not_expired h1
    unfold get_valid_token
    simp [ht, h1]
  · have ht := truthy_of_has_not_expired h2
    rcases hrw : refresh_auth_token env m fs with ⟨ok, m1, fs1, calls⟩
    constructor
    · intro hr
      have hok : ok = true := hr
      subst hok
      unfold get_valid_token
      simp [h1, ht, h2, hrw]
    · intro hr
      have hok : ok = false := hr
      subst hok
      unfold get_valid_token
      simp [h1, ht, h2, hrw]
  · unfold get_valid_token
    simp [h1, h2]

/-- Instance of C1: a valid cached auth token is returned as-is with no
request issued. -/
theorem get_valid_token_decision_order_witness :
    get_valid_token envExn mAuthValid fs0 = ⟨some "A", mAuthValid, fs0, []⟩ :=
  (get_valid_token_decision_order envExn mAuthValid fs0).1 (by decide)

/-- Claim C7: when the refresh request yields a new token but its
self-validation fails, `refresh_auth_token` returns false while the new
auth record is already saved to the auth-token file and adopted as the
in-memory state. -/
theorem refresh_validation_failure_keeps_token (env : Env) (m : Manager)
    (fs : FS) (rt tok : String) (st : Nat) (b : RefreshBody)
    (h1 : has_not_expired env.now m.refresh_token_data = true)
    (h2 : m.refresh_token_data.token = some rt)
    (h3 : ¬ rt = "")
    (h4 : env.refreshResp rt = .resp st (some b))
    (h5 : raisesForStatus st = false)
    (h6 : b.token = some tok)
    (h7 : (validate_token env tok).1 = false) :
    refresh_auth_token env m fs =
      ⟨false,
        ⟨m.invite_code_data, m.refresh_token_data,
          ⟨some tok, some (.aware env.now),
            some (.aware (env.now + b.expiresIn.getD 86400))⟩⟩,
        ⟨fs.inviteFile, fs.refreshFile,
          some ⟨some tok, some (.aware env.now),
            some (.aware (env.now + b.expiresIn.getD 86400))⟩⟩,
        [.refreshCall rt, .detailsCall tok]⟩ := by
  have ht := truthy_of_has_not_expired h1
  rcases hv : validate_token env tok with ⟨ok, vc⟩
  have hok : ok = false := by rw [hv] at h7; exact h7
  have hvc : vc = [NetCall.detailsCall tok] := by
    have h := validate_token_calls env tok
    rw [hv] at h
    exact h
  subst hok
  subst hvc
  unfold refresh_auth_token
  simp [ht, h1, h2, h3, h4, h5, h6, hv]

/-- Instance of C7: refresh succeeds with token `"T"`, the details endpoint
reports it invalid; the call fails but the record for `"T"` is in memory
and on disk. -/
theorem refresh_validation_failure_keeps_token_witness :
    refresh_auth_token envRefreshOkValidateFail mRefreshValid fs0 =
      ⟨false,
        ⟨Rec.emptyRec, refreshRecValid,
          ⟨some "T", some (.aware 100), some (.aware 3700)⟩⟩,
        ⟨none, none, some ⟨some "T", some (.aware 100), some (.aware 3700)⟩⟩,
        [.refreshCall "R", .detailsCall "T"]⟩ := by
  have h := refresh_validation_failure_keeps_token envRefreshOkValidateFail
    mRefreshValid fs0 "R" "T" 200 ⟨some "T", some 3600⟩ (by decide) rfl
    (by decide) rfl (by decide) rfl (by decide)
  exact h

/-- Claim C9: a successful setup writes an auth record with
`created = now` and `expiration = now + expiresIn` (so `now + 86400` when
the response omits `expiresIn`) and a refresh record with `created = now`
and `expiration = now + expiration_days * 86400` seconds (the Python
default for `expiration_days` is 30), and deletes the invite-code file. -/
theorem setup_success_records (env : Env) (m : Manager) (fs : FS)
    (code : String) (days : Int) (st : Nat) (b : SetupBody)
    (tok rtok : String)
    (hc : ¬ code = "")
    (h4 : env.setupResp code = .resp st (some b))
    (h5 : raisesForStatus st = false)
    (htk : b.token = some tok)
    (hrt : b.refreshToken = some rtok) :
    setup_with_invite_code env m fs code days =
      ⟨true, m,
        ⟨none,
          some ⟨some rtok, some (.aware env.now),
            some (.aware (env.now + days * 86400))⟩,
          some ⟨some tok, some (.aware env.now),
            some (.aware (env.now + b.expiresIn.getD 86400))⟩⟩,
        [.setupCall code]⟩ ∧
    (b.expiresIn = none →
      (setup_with_invite_code env m fs code days).fs.authFile =
        some ⟨some tok, some (.aware env.now),
          some (.aware (env.now + 86400))⟩) := by
  have hmain : setup_with_invite_code env m fs code days =
      ⟨true, m,
        ⟨none,
          some ⟨some rtok, some (.aware env.now),
            some (.aware (env.now + days * 86400))⟩,
          some ⟨some tok, some (.aware env.now),
            some (.aware (env.now + b.expiresIn.getD 86400))⟩⟩,
        [.setupCall code]⟩ := by
    unfold setup_with_invite_code
    simp [hc, h4, h5, htk, hrt]
  refine ⟨hmain, fun he => ?_⟩
  rw [hmain]
  simp [he]

/-- Instance of C9: `expiresIn = 3600` gives an auth expiration of
`100 + 3600` and, with the 30-day default, a refresh expiration of
`100 + 2592000`. -/
theorem setup_success_records_witness :
    setup_with_invite_code envSetupOk mEmpty fs0 "C" 30 =
      ⟨true, mEmpty,
        ⟨none,
          some ⟨some "RT", some (.aware 100), some (.aware 2592100)⟩,
          some ⟨some "AT", some (.aware 100), some (.aware 3700)⟩⟩,
        [.setupCall "C"]⟩ := by
  have h := (setup_success_records envSetupOk mEmpty fs0 "C" 30 200
    ⟨some "AT", some "RT", some 3600⟩ "AT" "RT" (by decide) rfl (by decide)
    rfl rfl).1
  exact h

/-- `refresh_auth_token` issues at most two requests, at most one of them
to the token (refresh) endpoint. -/
theorem refresh_auth_token_calls_bound (env : Env) (m : Manager) (fs : FS) :
    (refresh_auth_token env m fs).calls.length ≤ 2 ∧
    (refresh_auth_token env m fs).calls.countP NetCall.isRefresh ≤ 1 := by
  cases hg : (!m.refresh_token_data.isTruthy ||
      !has_not_expired env.now m.refresh_token_data) with
  | true => simp [refresh_auth_token, hg]
  | false =>
    rcases htk : m.refresh_token_data.token with _ | rt
    · simp [refresh_auth_token, hg, htk]
    · by_cases hrt : rt = ""
      · simp [refresh_auth_token, hg, htk, hrt]
      · rcases hresp : env.refreshResp rt with _ | ⟨st, body⟩
        · simp [refresh_auth_token, hg, htk, hrt, hresp, NetCall.isRefresh]
        · cases hst : raisesForStatus st with
          | true =>
            simp [refresh_auth_token, hg, htk, hrt, hresp, hst,
              NetCall.isRefresh]
          | false =>
            rcases body with _ | tb
            · simp [refresh_auth_token, hg, htk, hrt, hresp, hst,
                NetCall.isRefresh]
            · rcases htok : tb.token with _ | tok
              · simp [refresh_auth_token, hg, htk, hrt, hresp, hst, htok,
                  NetCall.isRefresh]
              · rcases hv : validate_token env tok with ⟨ok, vc⟩
                have hvc : vc = [NetCall.detailsCall tok] := by
                  have h := validate_token_calls env tok
                  rw [hv] at h
                  exact h
                subst hvc
                simp [refresh_auth_token, hg, htk, hrt, hresp, hst, htok,
                  hv, NetCall.isRefresh]

/-- `get_valid_token` either stays offline or issues exactly the requests
of its one `refresh_auth_token` attempt. -/
theorem get_valid_token_calls_eq (env : Env) (m : Manager) (fs : FS) :
    (get_valid_token env m fs).calls = [] ∨
    (get_valid_token env m fs).calls = (refresh_auth_token env m fs).calls := by
  cases h1 : (m.auth_token_data.isTruthy &&
      has_not_expired env.now m.auth_token_data) with
  | true => exact Or.inl (by simp [get_valid_token, h1])
  | false =>
    cases h2 : (m.refresh_token_data.isTruthy &&
        has_not_expired env.now m.refresh_token_data) with
    | false => exact Or.inl (by simp [get_valid_token, h1, h2])
    | true =>
      refine Or.inr ?_
      rcases hrw : refresh_auth_token env m fs with ⟨ok, m1, fs1, calls⟩
      cases ok <;> simp [get_valid_token, h1, h2, hrw]

/-- Claim C2 (amended): one `get_valid_token` call makes at most one
refresh attempt (no retry loop) but up to two network round trips in
total, because a refresh attempt that obtains a token issues a second
request — the self-validation hit on the details endpoint. -/
theorem get_valid_token_network_bound (env : Env) (m : Manager) (fs : FS) :
    (get_valid_token env m fs).calls.length ≤ 2 ∧
    (get_valid_token env m fs).calls.countP NetCall.isRefresh ≤ 1 := by
  rcases get_valid_token_calls_eq env m fs with h | h
  · simp [h]
  · rw [h]
    exact refresh_auth_token_calls_bound env m fs

/-- Counterexample to C2 as stated: with a valid refresh record and a
remote that grants a new token, one `get_valid_token` call performs two
network round trips — the refresh request and the self-validation
request. -/
theorem get_valid_token_two_calls :
    (get_valid_token envRefreshOk mRefreshValid fs0).calls =
      [NetCall.refreshCall "R", NetCall.detailsCall "T"] ∧
    ¬ (get_valid_token envRefreshOk mRefreshValid fs0).calls.length ≤ 1 := by
  refine ⟨rfl, ?_⟩
  decide

/-- Claim C3 (amended): a failing `setup_with_invite_code` never touches
the in-memory records, never deletes the invite-code file and never writes
the refresh-token file; the auth-token file is also untouched — except in
the one case where the remote answers success with a `token` but no
`refreshToken`, in which case the new auth record has already been written
before the failure (a partial write). -/
theorem setup_failure_frame (env : Env) (m : Manager) (fs : FS)
    (code : String) (days : Int)
    (h : (setup_with_invite_code env m fs code days).ret = false) :
    (setup_with_invite_code env m fs code days).mgr = m ∧
    (setup_with_invite_code env m fs code days).fs.inviteFile =
      fs.inviteFile ∧
    (setup_with_invite_code env m fs code days).fs.refreshFile =
      fs.refreshFile ∧
    (missingRefreshTokenSuccess env code = false →
      (setup_with_invite_code env m fs code days).fs.authFile =
        fs.authFile) ∧
    (missingRefreshTokenSuccess env code = true → ¬ code = "" →
      ∃ tok texp,
        (setup_with_invite_code env m fs code days).fs.authFile =
          some ⟨some tok, some (.aware env.now), some (.aware texp)⟩) := by
  by_cases hc : code = ""
  · exact ⟨by simp [setup_with_invite_code, hc],
      by simp [setup_with_invite_code, hc],
      by simp [setup_with_invite_code, hc],
      fun _ => by simp [setup_with_invite_code, hc],
      fun hm hc' => absurd hc hc'⟩
  · rcases hresp : env.setupResp code with _ | ⟨st, body⟩
    · refine ⟨by simp [setup_with_invite_code, hc, hresp],
        by simp [setup_with_invite_code, hc, hresp],
        by simp [setup_with_invite_code, hc, hresp],
        fun _ => by simp [setup_with_invite_code, hc, hresp],
        fun hm hc' => ?_⟩
      simp [missingRefreshTokenSuccess, hresp] at hm
    · cases hst : raisesForStatus st with
      | true =>
        refine ⟨by simp [setup_with_invite_code, hc, hresp, hst],
          by simp [setup_with_invite_code, hc, hresp, hst],
          by simp [setup_with_invite_code, hc, hresp, hst],
          fun _ => by simp [setup_with_invite_code, hc, hresp, hst],
          fun hm hc' => ?_⟩
        rcases body with _ | tb
        · simp [missingRefreshTokenSuccess, hresp] at hm
        · simp [missingRefreshTokenSuccess, hresp, hst] at hm
      | false =>
        rcases body with _ | tb
        · refine ⟨by simp [setup_with_invite_code, hc, hresp, hst],
            by simp [setup_with_invite_code, hc, hresp, hst],
            by simp [setup_with_invite_code, hc, hresp, hst],
            fun _ => by simp [setup_with_invite_code, hc, hresp, hst],
            fun hm hc' => ?_⟩
          simp [missingRefreshTokenSuccess, hresp] at hm
        · rcases htok : tb.token with _ | tok
          · refine ⟨by simp [setup_with_invite_code, hc, hresp, hst, htok],
              by simp [setup_with_invite_code, hc, hresp, hst, htok],
              by simp [setup_with_invite_code, hc, hresp, hst, htok],
              fun _ => by simp [setup_with_invite_code, hc, hresp, hst, htok],
              fun hm hc' => ?_⟩
            simp [missingRefreshTokenSuccess, hresp, hst, htok] at hm
          · rcases hrft : tb.refreshToken with _ | rtok
            · refine ⟨by simp [setup_with_invite_code, hc, hresp, hst, htok,
                  hrft],
                by simp [setup_with_invite_code, hc, hresp, hst, htok, hrft],
                by simp [setup_with_invite_code, hc, hresp, hst, htok, hrft],
                fun hm => ?_, fun hm hc' => ?_⟩
              · simp [missingRefreshTokenSuccess, hresp, hst, htok, hrft]
                  at hm
              · exact ⟨tok, env.now + tb.expiresIn.getD 86400,
                  by simp [setup_with_invite_code, hc, hresp, hst, htok,
                    hrft]⟩
            · exfalso
              simp [setup_with_invite_code, hc, hresp, hst, htok, hrft] at h

/-- Instance of the amended C3: with the network unreachable, a failing
setup leaves the manager and every file untouched. -/
theorem setup_failure_frame_witness :
    (setup_with_invite_code envExn mEmpty fs0 "C" 30).mgr = mEmpty ∧
    (setup_with_invite_code envExn mEmpty fs0 "C" 30).fs.authFile =
      fs0.authFile :=
  ⟨(setup_failure_frame envExn mEmpty fs0 "C" 30 (by decide)).1,
    (setup_failure_frame envExn mEmpty fs0 "C" 30 (by decide)).2.2.2.1
      (by decide)⟩

/-- Counterexample to C3 as stated: a 200 setup response with a `token` but
no `refreshToken` makes the operation fail, yet the new auth record has
been written to the auth-token file. -/
theorem setup_partial_write :
    (setup_with_invite_code envSetupMissingRefresh mEmpty fs0 "C" 30).ret
      = false ∧
    (setup_with_invite_code envSetupMissingRefresh mEmpty fs0 "C" 30).fs.authFile
      = some ⟨some "T", some (.aware 100), some (.aware 86500)⟩ ∧
    ¬ (setup_with_invite_code envSetupMissingRefresh mEmpty fs0 "C" 30).fs.authFile
      = fs0.authFile := by
  refine ⟨rfl, rfl, ?_⟩
  decide

/-- Claim C8 (amended): `validate_token` is a total function (never
raises); a network failure, a body that fails to parse, or any status
other than exactly 200 — including other 2xx statuses — yields false, and
a 200 response yields the `validToken` field, defaulting to false when the
key is absent. -/
theorem validate_token_spec (env : Env) (tok : String) :
    (env.detailsResp tok = .exn → (validate_token env tok).1 = false) ∧
    (∀ st body, env.detailsResp tok = .resp st body → ¬ st = 200 →
      (validate_token env tok).1 = false) ∧
    (env.detailsResp tok = .resp 200 none →
      (validate_token env tok).1 = false) ∧
    (∀ b, env.detailsResp tok = .resp 200 (some b) →
      (validate_token env tok).1 = b.validToken.getD false) := by
  refine ⟨fun h => ?_, fun st body h hst => ?_, fun h => ?_, fun b h => ?_⟩
  · simp [validate_token, get_token_details, h]
  · simp [validate_token, get_token_details, h, hst]
  · simp [validate_token, get_token_details, h]
  · simp [validate_token, get_token_details, h]

/-- Instance of the amended C8: a 200 response with `validToken: true`
makes `validate_token` return true. -/
theorem validate_token_spec_witness :
    (validate_token envDetails200True "T").1 = true := by
  have h := (validate_token_spec envDetails200True "T").2.2.2 ⟨some true⟩ rfl
  simpa using h

/-- Counterexample to C8 as stated: a 201 response — a 2xx status — with
`validToken: true` still makes `validate_token` return false, because the
code tests for status exactly 200. -/
theorem validate_token_201_false :
    envDetails201.detailsResp "T" = NetOutcome.resp 201 (some ⟨some true⟩) ∧
    (validate_token envDetails201 "T").1 = false :=
  ⟨rfl, rfl⟩
